import Mathlib

set_option autoImplicit false

/-
Shallow embedding of the contact-book program in
src/phone_book_managed_08.py.

Strings are Lean Strings (Python len counts characters, which matches
String.length).  Python exceptions become an explicit PyErr value carried in
Except; handlers that mutate the AddressBook pass it explicitly, so state
changes made before an exception is raised survive the exception exactly as
they do for the mutated Python objects.  datetime.today() is a parameter: a
calendar date plus the time of day in microseconds.
-/

/-- ASCII whitespace characters stripped by Python str.strip (Python also
strips the rarer Unicode space characters, which nothing in this development
uses). -/
def pyWhitespace (c : Char) : Bool :=
  c == ' ' || c == '\t' || c == '\n' || c == '\r' || c == '\x0b' || c == '\x0c'

/-- Python str.strip on a character list. -/
def stripChars (l : List Char) : List Char :=
  ((l.dropWhile pyWhitespace).reverse.dropWhile pyWhitespace).reverse

/-- Python str.strip on a String. -/
def pyStrip (s : String) : String :=
  String.mk (stripChars s.data)

/-- Codepoint ranges of the Unicode decimal digits (category Nd) in the basic
plane; each range runs from the digit 0 to the digit 9 of one script.  Python
str.isdigit and int() accept every character in these ranges, not only the
ASCII digits 0x30-0x39.  (The supplementary-plane decimal digits are omitted
from the table; no claim below depends on them.) -/
def decDigitRanges : List (Nat × Nat) :=
  [(0x30, 0x39), (0x660, 0x669), (0x6f0, 0x6f9), (0x7c0, 0x7c9),
   (0x966, 0x96f), (0x9e6, 0x9ef), (0xa66, 0xa6f), (0xae6, 0xaef),
   (0xb66, 0xb6f), (0xbe6, 0xbef), (0xc66, 0xc6f), (0xce6, 0xcef),
   (0xd66, 0xd6f), (0xde6, 0xdef), (0xe50, 0xe59), (0xed0, 0xed9),
   (0xf20, 0xf29), (0x1040, 0x1049), (0x1090, 0x1099), (0x17e0, 0x17e9),
   (0x1810, 0x1819), (0x1946, 0x194f), (0x19d0, 0x19d9), (0x1a80, 0x1a89),
   (0x1a90, 0x1a99), (0x1b50, 0x1b59), (0x1bb0, 0x1bb9), (0x1c40, 0x1c49),
   (0x1c50, 0x1c59), (0xa620, 0xa629), (0xa8d0, 0xa8d9), (0xa900, 0xa909),
   (0xa9d0, 0xa9d9), (0xa9f0, 0xa9f9), (0xaa50, 0xaa59), (0xabf0, 0xabf9),
   (0xff10, 0xff19)]

/-- Numeric value of a Unicode decimal digit, none for any other character
(the digit class accepted by Python int()). -/
def pyDecDigitVal (c : Char) : Option Nat :=
  decDigitRanges.findSome? fun p =>
    if p.1 ≤ c.toNat && c.toNat ≤ p.2 then some (c.toNat - p.1) else none

/-- Characters with Unicode numeric type Digit but not Decimal: accepted by
str.isdigit yet rejected by int().  The table lists the superscript and
subscript digits; Python additionally accepts a few other digit-typed
characters (for example circled digits) that no claim below touches. -/
def digitTypeCodes : List Nat :=
  [0xb2, 0xb3, 0xb9, 0x2070, 0x2074, 0x2075, 0x2076, 0x2077, 0x2078, 0x2079,
   0x2080, 0x2081, 0x2082, 0x2083, 0x2084, 0x2085, 0x2086, 0x2087, 0x2088,
   0x2089]

/-- Python single-character isdigit test: Unicode decimal digits plus
digit-typed characters. -/
def pyIsDigitChar (c : Char) : Bool :=
  (pyDecDigitVal c).isSome || digitTypeCodes.contains c.toNat

/-- Python str.isdigit: nonempty and every character passes the digit test. -/
def pyStrIsDigit (s : String) : Bool :=
  !s.data.isEmpty && s.data.all pyIsDigitChar

/-- Digits of an int() literal after the first: decimal digits with single
underscores allowed between digits. -/
def pyIntRest : List Char → Nat → Option Nat
  | [], acc => some acc
  | '_' :: c :: cs, acc =>
    match pyDecDigitVal c with
    | some d => pyIntRest cs (10 * acc + d)
    | none => none
  | c :: cs, acc =>
    match pyDecDigitVal c with
    | some d => pyIntRest cs (10 * acc + d)
    | none => none

/-- Magnitude part of an int() literal: at least one decimal digit, then
pyIntRest. -/
def pyIntMag : List Char → Option Nat
  | [] => none
  | c :: cs =>
    match pyDecDigitVal c with
    | some d => pyIntRest cs d
    | none => none

/-- Python int(s) in base 10: surrounding whitespace, an optional sign, then
digits (Unicode decimal digits included) with optional single underscores
between digits. -/
def pyIntParse (s : String) : Option Int :=
  match stripChars s.data with
  | '+' :: rest => (pyIntMag rest).map (fun n => (n : Int))
  | '-' :: rest => (pyIntMag rest).map (fun n => -(n : Int))
  | rest => (pyIntMag rest).map (fun n => (n : Int))

/-- Gregorian leap-year rule, as used by Python datetime. -/
def isLeap (y : Nat) : Bool :=
  y % 4 == 0 && (y % 100 != 0 || y % 400 == 0)

/-- Length of a month of the Gregorian calendar. -/
def daysInMonth (y m : Nat) : Nat :=
  if m == 2 then (if isLeap y then 29 else 28)
  else if m == 4 || m == 6 || m == 9 || m == 11 then 30
  else 31

/-- Days contained in the months of year y strictly before month m. -/
def daysBeforeMonth (y m : Nat) : Nat :=
  (List.range (m - 1)).foldl (fun acc k => acc + daysInMonth y (k + 1)) 0

/-- Days contained in the years strictly before year y of the proleptic
Gregorian calendar. -/
def daysBeforeYear (y : Nat) : Nat :=
  365 * (y - 1) + (y - 1) / 4 - (y - 1) / 100 + (y - 1) / 400

/-- A calendar date as held by a Python datetime.  The birthdays produced by
strptime always sit at midnight, so a date is enough for them. -/
structure PyDate where
  year : Nat
  month : Nat
  day : Nat
deriving DecidableEq, Repr

/-- Python date.toordinal: day number 1 is January 1 of year 1. -/
def toOrdinal (d : PyDate) : Nat :=
  daysBeforeYear d.year + daysBeforeMonth d.year d.month + d.day

/-- A Python datetime as returned by datetime.today(): a date plus the time of
day in microseconds. -/
structure PyDateTime where
  date : PyDate
  tod : Nat
deriving DecidableEq, Repr

/-- Microseconds per day. -/
def usPerDay : Nat := 86400000000

/-- Total microseconds of a datetime since the epoch of toordinal. -/
def dtTotal (t : PyDateTime) : Nat :=
  toOrdinal t.date * usPerDay + t.tod

/-- The days field of the Python timedelta a - b.  timedelta normalisation
floors, so a positive difference of less than one full day has zero days. -/
def timedeltaDays (a b : PyDateTime) : Int :=
  Int.fdiv ((dtTotal a : Int) - (dtTotal b : Int)) (usPerDay : Int)

/-- datetime.replace(year=y): the datetime constructor re-validates, raising
ValueError when the day does not exist in the target month (a Feb 29 birthday
replaced into a non-leap year) or the year leaves the supported range. -/
def dateReplaceYear (d : PyDate) (y : Nat) : Option PyDate :=
  if y < 1 || 9999 < y then none
  else if d.day ≤ daysInMonth y d.month then some ⟨y, d.month, d.day⟩
  else none

/-- The ASCII digit character for v < 10. -/
def digChar (v : Nat) : Char := Char.ofNat (48 + v)

/-- Two-digit zero-padded decimal rendering (strftime %d and %m). -/
def pad2 (n : Nat) : List Char := [digChar (n / 10), digChar (n % 10)]

/-- Four-digit zero-padded decimal rendering (strftime %Y). -/
def pad4 (n : Nat) : List Char :=
  [digChar (n / 1000), digChar (n / 100 % 10), digChar (n / 10 % 10), digChar (n % 10)]

/-- strftime("%d.%m.%Y"): zero-padded day and month and a four-digit year, as
used by Record.__str__ and the birthdays command. -/
def strftimeDMY (d : PyDate) : String :=
  String.mk (pad2 d.day ++ ('.' :: (pad2 d.month ++ ('.' :: pad4 d.year))))

/-- Split a character list at every occurrence of a separator character,
keeping empty fields: the semantics of Python str.split(sep) for a
one-character separator, and the field structure imposed by the literal dots
of the "%d.%m.%Y" strptime pattern. -/
def splitOnCh (sep : Char) : List Char → List (List Char)
  | [] => [[]]
  | c :: rest =>
    if c == sep then [] :: splitOnCh sep rest
    else
      match splitOnCh sep rest with
      | [] => [[c]]
      | g :: gs => (c :: g) :: gs

/-- Join character-list fields with a one-character separator: the inverse of
splitOnCh. -/
def joinCh (sep : Char) : List (List Char) → List Char
  | [] => []
  | [g] => g
  | g :: gs => g ++ sep :: joinCh sep gs

/-- The day field of strptime "%d": CPython matches it with the regex
3[01] | [12]d | 0[1-9] | [1-9] (d standing for any Unicode decimal digit,
the bracketed digits being ASCII literals) and reads the value with int();
the literal dot that follows forces the whole field to be consumed. -/
def dayFieldVal : List Char → Option Nat
  | [c] => if 49 ≤ c.toNat && c.toNat ≤ 57 then some (c.toNat - 48) else none
  | [c1, c2] =>
    if c1 == '3' && (c2 == '0' || c2 == '1') then some (30 + (c2.toNat - 48))
    else if c1 == '1' || c1 == '2' then
      (pyDecDigitVal c2).map (fun v => 10 * (c1.toNat - 48) + v)
    else if c1 == '0' && 49 ≤ c2.toNat && c2.toNat ≤ 57 then some (c2.toNat - 48)
    else none
  | _ => none

/-- The month field of strptime "%m": the regex 1[0-2] | 0[1-9] | [1-9]. -/
def monthFieldVal : List Char → Option Nat
  | [c] => if 49 ≤ c.toNat && c.toNat ≤ 57 then some (c.toNat - 48) else none
  | [c1, c2] =>
    if c1 == '1' && (c2 == '0' || c2 == '1' || c2 == '2') then
      some (10 + (c2.toNat - 48))
    else if c1 == '0' && 49 ≤ c2.toNat && c2.toNat ≤ 57 then some (c2.toNat - 48)
    else none
  | _ => none

/-- The year field of strptime "%Y": exactly four decimal digits. -/
def yearFieldVal : List Char → Option Nat
  | [a, b, c, d] =>
    match pyDecDigitVal a, pyDecDigitVal b, pyDecDigitVal c, pyDecDigitVal d with
    | some va, some vb, some vc, some vd =>
      some (1000 * va + 100 * vb + 10 * vc + vd)
    | _, _, _, _ => none
  | _ => none

/-- datetime.strptime(s, "%d.%m.%Y"): three dot-separated fields matching the
day, month and four-digit-year patterns, and the resulting calendar date must
exist (year at least 1 and the day within the month; four digits keep the year
at most 9999). -/
def parseDMY (cs : List Char) : Option PyDate :=
  match splitOnCh '.' cs with
  | [df, mf, yf] =>
    match dayFieldVal df, monthFieldVal mf, yearFieldVal yf with
    | some d, some m, some y =>
      if 1 ≤ y ∧ d ≤ daysInMonth y m then some ⟨y, m, d⟩ else none
    | _, _, _ => none
  | _ => none

/-- The Python exception classes distinguished by the input_error decorator. -/
inductive PyErr where
  | valueError (msg : String)
  | indexError (msg : String)
  | unexpected (msg : String)
deriving DecidableEq, Repr

/-- Whether an Except value is a success. -/
def isOkB {e a : Type} : Except e a → Bool
  | Except.ok _ => true
  | Except.error _ => false

/-- class Name(Field): a bare wrapper, with no validation at all. -/
structure Name where
  value : String
deriving DecidableEq, Repr

/-- class Phone(Field): the stored string.  The constructor check lives in
phoneNew; edit_phone later overwrites value without re-validating, exactly as
the source does. -/
structure Phone where
  value : String
deriving DecidableEq, Repr

/-- class Birthday(Field): the datetime parsed by strptime (always midnight,
so a date suffices). -/
structure Birthday where
  value : PyDate
deriving DecidableEq, Repr

/-- Phone.__init__: raises ValueError unless value.isdigit() holds and the
length is exactly 10. -/
def phoneNew (s : String) : Except PyErr Phone :=
  if !(pyStrIsDigit s) || s.length != 10 then
    Except.error (PyErr.valueError "Phone must have exactly 10 digits.")
  else Except.ok ⟨s⟩

/-- Birthday.__init__ on a string: strptime with "%d.%m.%Y", any parse failure
rewrapped as the fixed-message ValueError. -/
def birthdayNew (s : String) : Except PyErr Birthday :=
  match parseDMY s.data with
  | some d => Except.ok ⟨d⟩
  | none => Except.error (PyErr.valueError "Invalid date format. Use DD.MM.YYYY")

/-- class Record: one contact. -/
structure Record where
  name : Name
  phones : List Phone
  birthday : Option Birthday
deriving DecidableEq, Repr

/-- The loop of Record.edit_phone over the phone list: overwrite the value of
the first matching entry without validation; when no entry matches, fall off
the loop leaving the list unchanged. -/
def editPhones : List Phone → String → String → List Phone
  | [], _, _ => []
  | p :: ps, oldv, newv =>
    if p.value == oldv then { p with value := newv } :: ps
    else p :: editPhones ps oldv newv

/-- Record.edit_phone. -/
def Record.edit_phone (r : Record) (oldv newv : String) : Record :=
  { r with phones := editPhones r.phones oldv newv }

/-- Record.add_phone: validate and append. -/
def Record.add_phone (r : Record) (p : String) : Except PyErr Record :=
  (phoneNew p).map fun ph => { r with phones := r.phones ++ [ph] }

/-- Record.remove_phone: drop every entry whose value equals p. -/
def Record.remove_phone (r : Record) (p : String) : Record :=
  { r with phones := r.phones.filter (fun ph => ph.value != p) }

/-- Record.add_birthday: validate and set or replace the single birthday. -/
def Record.add_birthday (r : Record) (s : String) : Except PyErr Record :=
  (birthdayNew s).map fun b => { r with birthday := some b }

/-- Record.days_to_birthday: compares the stored midnight datetime, with its
year replaced by the current year, against the full datetime.today(), rolling
one year forward when the comparison says the occurrence has passed, and
returns the days field of the timedelta.  The replace calls re-validate and
can raise (a Feb 29 birthday against a non-leap target year); that exception
propagates out of the method. -/
def Record.days_to_birthday (r : Record) (today : PyDateTime) :
    Except PyErr (Option Int) :=
  match r.birthday with
  | none => Except.ok none
  | some b =>
    match dateReplaceYear b.value today.date.year with
    | none => Except.error (PyErr.valueError "day is out of range for month")
    | some nb1 =>
      if dtTotal ⟨nb1, 0⟩ < dtTotal today then
        match dateReplaceYear nb1 (today.date.year + 1) with
        | none => Except.error (PyErr.valueError "day is out of range for month")
        | some nb2 => Except.ok (some (timedeltaDays ⟨nb2, 0⟩ today))
      else Except.ok (some (timedeltaDays ⟨nb1, 0⟩ today))

/-- Record.__str__. -/
def record_str (r : Record) : String :=
  "Contact name: " ++ r.name.value ++ ", phones: " ++
    String.intercalate ", " (r.phones.map Phone.value) ++ ", birthday: " ++
    (match r.birthday with
     | some b => strftimeDMY b.value
     | none => "No birthday")

/-- class AddressBook(UserDict): an insertion-ordered mapping from name string
to Record, modelled as an association list (keys are unique for every book
built by the operations below). -/
abbrev AddressBook := List (String × Record)

/-- AddressBook.add_record: dict assignment book[name] = record.  An existing
key keeps its position; a fresh key is appended at the end. -/
def AddressBook.add_record : AddressBook → Record → AddressBook
  | [], r => [(r.name.value, r)]
  | (k, v) :: rest, r =>
    if k == r.name.value then (k, r) :: rest
    else (k, v) :: AddressBook.add_record rest r

/-- AddressBook.find: dict.get, first binding of the key. -/
def AddressBook.find : AddressBook → String → Option Record
  | [], _ => none
  | (k, v) :: rest, n => if k == n then some v else AddressBook.find rest n

/-- In-place mutation of the record object held under a key: Python handlers
mutate the alias returned by find, which the explicit-state embedding renders
as replacing the value stored at that key. -/
def AddressBook.update_record : AddressBook → String → Record → AddressBook
  | [], _, _ => []
  | (k, v) :: rest, n, r =>
    if k == n then (k, r) :: rest
    else (k, v) :: AddressBook.update_record rest n r

/-- AddressBook.delete. -/
def AddressBook.delete : AddressBook → String → AddressBook
  | [], _ => []
  | (k, v) :: rest, n =>
    if k == n then rest else (k, v) :: AddressBook.delete rest n

/-- AddressBook.get_upcoming_birthdays: walks the records in book order,
applies the same datetime arithmetic as days_to_birthday, and keeps the
records whose timedelta day count lies in [0, days].  A replace failure
raises out of the loop. -/
def AddressBook.get_upcoming_birthdays :
    AddressBook → PyDateTime → Int → Except PyErr (List Record)
  | [], _, _ => Except.ok []
  | (_, r) :: rest, today, days =>
    match r.birthday with
    | none => AddressBook.get_upcoming_birthdays rest today days
    | some b =>
      match dateReplaceYear b.value today.date.year with
      | none => Except.error (PyErr.valueError "day is out of range for month")
      | some nb1 =>
        match
          (if dtTotal ⟨nb1, 0⟩ < dtTotal today then
            dateReplaceYear nb1 (today.date.year + 1)
          else some nb1) with
        | none => Except.error (PyErr.valueError "day is out of range for month")
        | some nb =>
          match AddressBook.get_upcoming_birthdays rest today days with
          | Except.error e => Except.error e
          | Except.ok tail =>
            if 0 ≤ timedeltaDays ⟨nb, 0⟩ today ∧ timedeltaDays ⟨nb, 0⟩ today ≤ days then
              Except.ok (r :: tail)
            else Except.ok tail

/-- The except clauses of the input_error decorator, in their order:
ValueError, IndexError, then any other exception. -/
def formatCaught : PyErr → String
  | PyErr.valueError m => "Error: " ++ m
  | PyErr.indexError _ => "Error: Missing arguments."
  | PyErr.unexpected m => "Unexpected error: " ++ m

/-- input_error: a normal return passes through, a raised exception becomes
its formatted message. -/
def input_errorWrap : Except PyErr String → String
  | Except.ok s => s
  | Except.error e => formatCaught e

/-- add_contact before the decorator: the guard re-raises missing or
non-digit arguments as ValueError; a fresh Record is inserted into the book
before add_phone validates the number, so a bad length leaves the empty
record behind. -/
def add_contactBody (args : List String) (book : AddressBook) :
    Except PyErr String × AddressBook :=
  match args with
  | name :: phone :: _ =>
    if !(pyStrIsDigit phone) then
      (Except.error (PyErr.valueError "Please provide both name and a valid phone number."),
       book)
    else
      match AddressBook.find book name with
      | some r =>
        match phoneNew phone with
        | Except.ok p =>
          (Except.ok "Contact updated.",
           AddressBook.update_record book name { r with phones := r.phones ++ [p] })
        | Except.error e => (Except.error e, book)
      | none =>
        match phoneNew phone with
        | Except.ok p =>
          (Except.ok "Contact added.",
           AddressBook.update_record (AddressBook.add_record book ⟨⟨name⟩, [], none⟩)
             name ⟨⟨name⟩, [p], none⟩)
        | Except.error e =>
          (Except.error e, AddressBook.add_record book ⟨⟨name⟩, [], none⟩)
  | _ =>
    (Except.error (PyErr.valueError "Please provide both name and a valid phone number."),
     book)

/-- change_phone before the decorator: the tuple unpacking of args raises
ValueError (not IndexError) when the argument count is not exactly three. -/
def change_phoneBody (args : List String) (book : AddressBook) :
    Except PyErr String × AddressBook :=
  match args with
  | [name, oldv, newv] =>
    match AddressBook.find book name with
    | none =>
      (Except.error (PyErr.valueError ("Contact " ++ name ++ " not found in AddressBook.")),
       book)
    | some r =>
      (Except.ok ("Phone number " ++ oldv ++ " changed to " ++ newv ++
        " for contact " ++ name ++ "."),
       AddressBook.update_record book name (Record.edit_phone r oldv newv))
  | _ =>
    if args.length < 3 then
      (Except.error (PyErr.valueError
        ("not enough values to unpack (expected 3, got " ++ Nat.repr args.length ++ ")")),
       book)
    else
      (Except.error (PyErr.valueError "too many values to unpack (expected 3)"), book)

/-- show_phones before the decorator (it never mutates the book). -/
def show_phonesBody (args : List String) (book : AddressBook) : Except PyErr String :=
  match args with
  | [] =>
    Except.error (PyErr.valueError "not enough values to unpack (expected at least 1, got 0)")
  | name :: _ =>
    match AddressBook.find book name with
    | none =>
      Except.error (PyErr.valueError ("Contact " ++ name ++ " not found in AddressBook."))
    | some r =>
      let phonesStr := String.intercalate ", " (r.phones.map Phone.value)
      if phonesStr != "" then
        Except.ok ("Contact " ++ name ++ "\x27s phones: " ++ phonesStr)
      else Except.ok ("Contact " ++ name ++ " has no phones.")

/-- show_all before the decorator. -/
def show_allBody (book : AddressBook) : Except PyErr String :=
  match book with
  | [] => Except.ok "AddressBook is empty."
  | _ =>
    Except.ok (pyStrip (book.foldl
      (fun acc kv => acc ++ record_str kv.2 ++ "\n" ++ "--------------------" ++ "\n")
      "All contacts:\n"))

/-- add_birthday before the decorator: a short argument list raises the
unpacking ValueError. -/
def add_birthdayBody (args : List String) (book : AddressBook) :
    Except PyErr String × AddressBook :=
  match args with
  | name :: bday :: _ =>
    match AddressBook.find book name with
    | none =>
      (Except.error (PyErr.valueError ("Contact " ++ name ++ " not found in AddressBook.")),
       book)
    | some r =>
      match birthdayNew bday with
      | Except.ok b =>
        (Except.ok ("Birthday " ++ bday ++ " added for contact " ++ name ++ "."),
         AddressBook.update_record book name { r with birthday := some b })
      | Except.error e => (Except.error e, book)
  | _ =>
    (Except.error (PyErr.valueError
      ("not enough values to unpack (expected at least 2, got " ++
        Nat.repr args.length ++ ")")),
     book)

/-- birthdays before the decorator: int(args[0]) when an argument is given,
the default 7 otherwise; records listed by get_upcoming_birthdays are printed
with their stored birthday (which they necessarily have; the none branch of
the match is unreachable). -/
def birthdaysBody (args : List String) (book : AddressBook) (today : PyDateTime) :
    Except PyErr String :=
  match
    (match args with
     | [] => Except.ok (7 : Int)
     | a :: _ =>
       match pyIntParse a with
       | some n => Except.ok n
       | none =>
         Except.error (PyErr.valueError
           ("invalid literal for int() with base 10: \x27" ++ a ++ "\x27"))) with
  | Except.error e => Except.error e
  | Except.ok days =>
    match AddressBook.get_upcoming_birthdays book today days with
    | Except.error e => Except.error e
    | Except.ok [] => Except.ok "No upcoming birthdays in the next week."
    | Except.ok upcoming =>
      Except.ok (pyStrip (upcoming.foldl
        (fun acc r => acc ++ r.name.value ++ ": " ++
          (match r.birthday with
           | some b => strftimeDMY b.value
           | none => "") ++ "\n")
        "Upcoming birthdays:\n"))

/-- The add handler as dispatched by main: input_error applied to the body. -/
def add_contact (args : List String) (book : AddressBook) : String × AddressBook :=
  (input_errorWrap (add_contactBody args book).1, (add_contactBody args book).2)

/-- The change handler as dispatched by main. -/
def change_phone (args : List String) (book : AddressBook) : String × AddressBook :=
  (input_errorWrap (change_phoneBody args book).1, (change_phoneBody args book).2)

/-- The phone handler as dispatched by main. -/
def show_phones (args : List String) (book : AddressBook) : String :=
  input_errorWrap (show_phonesBody args book)

/-- The all handler as dispatched by main. -/
def show_all (book : AddressBook) : String :=
  input_errorWrap (show_allBody book)

/-- The add-birthday handler as dispatched by main. -/
def add_birthday (args : List String) (book : AddressBook) : String × AddressBook :=
  (input_errorWrap (add_birthdayBody args book).1, (add_birthdayBody args book).2)

/-- The birthdays handler as dispatched by main. -/
def birthdays (args : List String) (book : AddressBook) (today : PyDateTime) : String :=
  input_errorWrap (birthdaysBody args book today)

/-- The user commands whose handlers carry the input_error decorator. -/
inductive Cmd where
  | add
  | change
  | phone
  | all
  | addBirthday
  | upcoming
deriving DecidableEq, Repr

/-- The raw handler of each command: the value it returns or the exception it
raises, together with the book state after the call. -/
def handlerBody (c : Cmd) (args : List String) (book : AddressBook)
    (today : PyDateTime) : Except PyErr String × AddressBook :=
  match c with
  | Cmd.add => add_contactBody args book
  | Cmd.change => change_phoneBody args book
  | Cmd.phone => (show_phonesBody args book, book)
  | Cmd.all => (show_allBody book, book)
  | Cmd.addBirthday => add_birthdayBody args book
  | Cmd.upcoming => (birthdaysBody args book today, book)

/-- Dispatch as the main loop performs it: every handler is the input_error
wrapped version of its body. -/
def runCmd (c : Cmd) (args : List String) (book : AddressBook)
    (today : PyDateTime) : String × AddressBook :=
  (input_errorWrap (handlerBody c args book today).1, (handlerBody c args book today).2)

/-- parse_input: strip the raw line, then split on single space characters;
blank input yields an empty command. -/
def parse_input (s : String) : String × List String :=
  if pyStrip s = "" then ("", [])
  else
    match (splitOnCh ' ' (pyStrip s).data).map String.mk with
    | [] => ("", [])
    | c :: args => (c, args)

/-! Helper lemmas. -/

theorem splitOnCh_ne_nil (sep : Char) (l : List Char) : splitOnCh sep l ≠ [] := by
  cases l with
  | nil => simp [splitOnCh]
  | cons c rest =>
    unfold splitOnCh
    by_cases h : (c == sep) = true
    · simp [h]
    · simp only [h]
      cases splitOnCh sep rest <;> simp

theorem splitOnCh_no_sep (sep : Char) (l : List Char) (h : ∀ c ∈ l, c ≠ sep) :
    splitOnCh sep l = [l] := by
  induction l with
  | nil => rfl
  | cons c rest ih =>
    have hc : (c == sep) = false := by
      simp only [beq_eq_false_iff_ne, ne_eq]
      exact h c (by simp)
    have ihh := ih (fun x hx => h x (by simp [hx]))
    simp [splitOnCh, hc, ihh]

theorem splitOnCh_append (sep : Char) (a r : List Char) (h : ∀ c ∈ a, c ≠ sep) :
    splitOnCh sep (a ++ sep :: r) = a :: splitOnCh sep r := by
  induction a with
  | nil => simp [splitOnCh]
  | cons c rest ih =>
    have hc : (c == sep) = false := by
      simp only [beq_eq_false_iff_ne, ne_eq]
      exact h c (by simp)
    have ihh := ih (fun x hx => h x (by simp [hx]))
    simp [splitOnCh, hc, ihh]

theorem joinCh_cons (sep : Char) (g : List Char) (gs : List (List Char))
    (hgs : gs ≠ []) : joinCh sep (g :: gs) = g ++ sep :: joinCh sep gs := by
  cases gs with
  | nil => exact absurd rfl hgs
  | cons g2 gs2 => rfl

theorem joinCh_splitOnCh (sep : Char) (l : List Char) :
    joinCh sep (splitOnCh sep l) = l := by
  induction l with
  | nil => rfl
  | cons c rest ih =>
    by_cases h : (c == sep) = true
    · have hsep : c = sep := by simpa using h
      have hstep : splitOnCh sep (c :: rest) = [] :: splitOnCh sep rest := by
        simp only [splitOnCh]; rw [if_pos h]
      rw [hstep, joinCh_cons sep [] (splitOnCh sep rest) (splitOnCh_ne_nil sep rest)]
      simp [ih, hsep]
    · cases hsp : splitOnCh sep rest with
      | nil => exact absurd hsp (splitOnCh_ne_nil sep rest)
      | cons g gs =>
        have hstep : splitOnCh sep (c :: rest) = (c :: g) :: gs := by
          simp only [splitOnCh]; rw [if_neg h, hsp]
        rw [hstep]
        rw [hsp] at ih
        cases gs with
        | nil =>
          show c :: g = c :: rest
          have hg : g = rest := ih
          rw [hg]
        | cons g2 gs2 =>
          rw [joinCh_cons sep (c :: g) (g2 :: gs2) (by simp)]
          rw [joinCh_cons sep g (g2 :: gs2) (by simp)] at ih
          rw [List.cons_append, ih]

theorem splitOnCh_groups_no_sep (sep : Char) (l : List Char) :
    ∀ g ∈ splitOnCh sep l, ∀ c ∈ g, c ≠ sep := by
  induction l with
  | nil =>
    intro g hg x hx
    simp [splitOnCh] at hg
    subst hg
    simp at hx
  | cons c rest ih =>
    intro g hg
    by_cases h : (c == sep) = true
    · have hstep : splitOnCh sep (c :: rest) = [] :: splitOnCh sep rest := by
        simp only [splitOnCh]; rw [if_pos h]
      rw [hstep] at hg
      rcases List.mem_cons.mp hg with h1 | h1
      · subst h1; intro x hx; simp at hx
      · exact ih g h1
    · cases hsp : splitOnCh sep rest with
      | nil => exact absurd hsp (splitOnCh_ne_nil sep rest)
      | cons g1 gs1 =>
        have hstep : splitOnCh sep (c :: rest) = (c :: g1) :: gs1 := by
          simp only [splitOnCh]; rw [if_neg h, hsp]
        rw [hstep] at hg
        rcases List.mem_cons.mp hg with h1 | h1
        · subst h1
          intro x hx
          rcases List.mem_cons.mp hx with h2 | h2
          · subst h2; simpa using h
          · exact ih g1 (by rw [hsp]; exact List.mem_cons_self g1 gs1) x h2
        · exact ih g (by rw [hsp]; exact List.mem_cons_of_mem (g1, gs1).1 h1)

theorem pyDecDigitVal_digChar : ∀ v, v < 10 → pyDecDigitVal (digChar v) = some v := by
  decide

theorem digChar_ne_dot : ∀ v, v < 10 → digChar v ≠ '.' := by
  decide

theorem dayFieldVal_pad2 : ∀ d, d < 32 → 1 ≤ d → dayFieldVal (pad2 d) = some d := by
  decide

theorem monthFieldVal_pad2 : ∀ m, m < 13 → 1 ≤ m → monthFieldVal (pad2 m) = some m := by
  decide

theorem daysInMonth_le_31 (y m : Nat) : daysInMonth y m ≤ 31 := by
  unfold daysInMonth
  split_ifs <;> omega

theorem pad2_no_dot (n : Nat) (h : n < 100) : ∀ c ∈ pad2 n, c ≠ '.' := by
  intro c hc
  rcases List.mem_cons.mp hc with h1 | h1
  · subst h1; exact digChar_ne_dot (n / 10) (by omega)
  · rcases List.mem_cons.mp h1 with h2 | h2
    · subst h2; exact digChar_ne_dot (n % 10) (by omega)
    · simp at h2

theorem pad4_no_dot (n : Nat) (h : n < 10000) : ∀ c ∈ pad4 n, c ≠ '.' := by
  intro c hc
  simp only [pad4, List.mem_cons, List.not_mem_nil, or_false] at hc
  rcases hc with h1 | h1 | h1 | h1 <;> subst h1
  · exact digChar_ne_dot (n / 1000) (by omega)
  · exact digChar_ne_dot (n / 100 % 10) (by omega)
  · exact digChar_ne_dot (n / 10 % 10) (by omega)
  · exact digChar_ne_dot (n % 10) (by omega)

theorem yearFieldVal_pad4 (y : Nat) (h : y < 10000) : yearFieldVal (pad4 y) = some y := by
  have h1 : y / 1000 < 10 := by omega
  have h2 : y / 100 % 10 < 10 := by omega
  have h3 : y / 10 % 10 < 10 := by omega
  have h4 : y % 10 < 10 := by omega
  simp only [pad4, yearFieldVal, pyDecDigitVal_digChar _ h1, pyDecDigitVal_digChar _ h2,
    pyDecDigitVal_digChar _ h3, pyDecDigitVal_digChar _ h4]
  congr 1
  omega

theorem editPhones_no_match (ps : List Phone) (ov nv : String)
    (h : ∀ p ∈ ps, p.value ≠ ov) : editPhones ps ov nv = ps := by
  induction ps with
  | nil => rfl
  | cons p ps ih =>
    have hp : (p.value == ov) = false := by
      simp only [beq_eq_false_iff_ne, ne_eq]
      exact h p (by simp)
    simp only [editPhones, hp, Bool.false_eq_true, if_false]
    rw [ih (fun q hq => h q (by simp [hq]))]

theorem find_update_self (book : AddressBook) (n : String) (r : Record)
    (h : AddressBook.find book n = some r) :
    AddressBook.update_record book n r = book := by
  induction book with
  | nil => simp [AddressBook.find] at h
  | cons kv rest ih =>
    obtain ⟨k, v⟩ := kv
    by_cases hk : (k == n) = true
    · have hv : v = r := by
        simpa [AddressBook.find, hk] using h
      simp [AddressBook.update_record, hk, hv]
    · have hrest : AddressBook.find rest n = some r := by
        simpa [AddressBook.find, hk] using h
      simp [AddressBook.update_record, hk, ih hrest]

theorem add_record_absent (book : AddressBook) (r : Record)
    (h : AddressBook.find book r.name.value = none) :
    AddressBook.add_record book r = book ++ [(r.name.value, r)] := by
  induction book with
  | nil => rfl
  | cons kv rest ih =>
    obtain ⟨k, v⟩ := kv
    by_cases hk : (k == r.name.value) = true
    · simp [AddressBook.find, hk] at h
    · have hrest : AddressBook.find rest r.name.value = none := by
        simpa [AddressBook.find, hk] using h
      simp [AddressBook.add_record, hk, ih hrest]

theorem find_append_absent (book : AddressBook) (n : String) (r : Record)
    (h : AddressBook.find book n = none) :
    AddressBook.find (book ++ [(n, r)]) n = some r := by
  induction book with
  | nil => simp [AddressBook.find]
  | cons kv rest ih =>
    obtain ⟨k, v⟩ := kv
    by_cases hk : (k == n) = true
    · simp [AddressBook.find, hk] at h
    · have hrest : AddressBook.find rest n = none := by
        simpa [AddressBook.find, hk] using h
      simp [AddressBook.find, hk, ih hrest]

theorem update_append_absent (book : AddressBook) (n : String) (r r2 : Record)
    (h : AddressBook.find book n = none) :
    AddressBook.update_record (book ++ [(n, r)]) n r2 = book ++ [(n, r2)] := by
  induction book with
  | nil => simp [AddressBook.update_record]
  | cons kv rest ih =>
    obtain ⟨k, v⟩ := kv
    by_cases hk : (k == n) = true
    · simp [AddressBook.find, hk] at h
    · have hrest : AddressBook.find rest n = none := by
        simpa [AddressBook.find, hk] using h
      simp [AddressBook.update_record, hk, ih hrest]

/-! Claim theorems. -/

theorem phoneNew_isOk (s : String) :
    isOkB (phoneNew s) = (pyStrIsDigit s && s.length == 10) := by
  unfold phoneNew
  cases hp : pyStrIsDigit s <;> cases hl : s.length == 10 <;>
    simp [hp, hl, isOkB, bne]

/-- C2 counterexample: a string of ten ARABIC-INDIC DIGIT ZERO characters is
accepted by the Phone constructor although none of its characters is an ASCII
digit, because Python str.isdigit covers every Unicode decimal digit. -/
theorem phone_nonascii_digits_cex :
    isOkB (phoneNew "٠٠٠٠٠٠٠٠٠٠") = true ∧
    ∀ c ∈ ("٠٠٠٠٠٠٠٠٠٠" : String).data, c.isDigit = false := by
  constructor
  · decide
  · decide

/-- C2 amended: Phone(s) succeeds exactly when s has length 10 and every
character of s is a digit in the sense of Python str.isdigit, which accepts
the decimal digits of every script and the digit-typed characters, not only
the ASCII digits; restricted to ASCII strings this is exactly ten ASCII
digits, and every failure raises the ValueError of Phone.__init__. -/
theorem phone_ok_iff_ten_py_digits (s : String) :
    isOkB (phoneNew s) = true ↔
      (s.length = 10 ∧ ∀ c ∈ s.data, pyIsDigitChar c = true) := by
  rw [phoneNew_isOk, Bool.and_eq_true]
  constructor
  · rintro ⟨h1, h2⟩
    have h10 : s.length = 10 := by simpa using h2
    refine ⟨h10, ?_⟩
    unfold pyStrIsDigit at h1
    rw [Bool.and_eq_true] at h1
    intro c hc
    exact List.all_eq_true.mp h1.2 c hc
  · rintro ⟨h10, hall⟩
    refine ⟨?_, by simpa using h10⟩
    unfold pyStrIsDigit
    rw [Bool.and_eq_true]
    refine ⟨?_, List.all_eq_true.mpr hall⟩
    have hne : s.data ≠ [] := by
      intro hh
      have h0 : s.length = 0 := by
        rw [show s.length = s.data.length from rfl, hh]
        rfl
      omega
    simp [hne]

/-- C4 counterexample: the string 5.3.1990 parses as a birthday (strptime
accepts one-digit day and month fields) but the stored date displays as the
zero-padded 05.03.1990, so the round trip does not return the original
string. -/
theorem birthday_roundtrip_cex :
    birthdayNew "5.3.1990" = Except.ok ⟨⟨1990, 3, 5⟩⟩ ∧
    strftimeDMY ⟨1990, 3, 5⟩ = "05.03.1990" ∧
    ("05.03.1990" : String) ≠ "5.3.1990" := by
  refine ⟨rfl, rfl, by decide⟩

/-- C4 amended: Birthday(s) succeeds exactly on strings that strptime parses
as day.month.year with a valid calendar date, where the day and month may
also be unpadded single digits; on success the date displays in zero-padded
DD.MM.YYYY form, so the round trip returns s itself exactly when s was fully
zero-padded.  In particular every valid calendar date rendered in the padded
display format parses back to the same stored date. -/
theorem birthday_padded_roundtrip (y m d : Nat)
    (hy1 : 1 ≤ y) (hy2 : y ≤ 9999) (hm1 : 1 ≤ m) (hm2 : m ≤ 12)
    (hd1 : 1 ≤ d) (hd2 : d ≤ daysInMonth y m) :
    birthdayNew (strftimeDMY ⟨y, m, d⟩) = Except.ok ⟨⟨y, m, d⟩⟩ := by
  have hd31 : d ≤ 31 := le_trans hd2 (daysInMonth_le_31 y m)
  unfold birthdayNew
  have hdata : (strftimeDMY ⟨y, m, d⟩).data =
      pad2 d ++ ('.' :: (pad2 m ++ ('.' :: pad4 y))) := rfl
  rw [hdata]
  unfold parseDMY
  rw [splitOnCh_append '.' (pad2 d) _ (pad2_no_dot d (by omega)),
    splitOnCh_append '.' (pad2 m) _ (pad2_no_dot m (by omega)),
    splitOnCh_no_sep '.' (pad4 y) (pad4_no_dot y (by omega))]
  simp only [dayFieldVal_pad2 d (by omega) hd1, monthFieldVal_pad2 m (by omega) hm1,
    yearFieldVal_pad4 y (by omega)]
  rw [if_pos ⟨hy1, hd2⟩]

/-- C4 witness: the amended round trip at the concrete date 25.12.1990. -/
theorem birthday_padded_roundtrip_witness :
    birthdayNew (strftimeDMY ⟨1990, 12, 25⟩) = Except.ok ⟨⟨1990, 12, 25⟩⟩ :=
  birthday_padded_roundtrip 1990 12 25 (by decide) (by decide) (by decide)
    (by decide) (by decide) (by decide)

/-- C1: evaluation at the failing input.  With today = 2026-10-12 at noon and
a single contact whose birthday is 12.10.1990 (month and day equal to
today's), get_upcoming_birthdays with days = 0 returns the empty list and the
birthdays handler reports none, although the claim requires exactly this
contact to be returned: the code compares the midnight birthday against the
full datetime, so a same-day birthday counts as passed and is rolled one year
forward. -/
theorem get_upcoming_excludes_today_cex :
    AddressBook.get_upcoming_birthdays
        [("Alice", ⟨⟨"Alice"⟩, [], some ⟨⟨1990, 10, 12⟩⟩⟩)]
        ⟨⟨2026, 10, 12⟩, 43200000000⟩ 0 = Except.ok [] ∧
    birthdays ["0"] [("Alice", ⟨⟨"Alice"⟩, [], some ⟨⟨1990, 10, 12⟩⟩⟩)]
        ⟨⟨2026, 10, 12⟩, 43200000000⟩ = "No upcoming birthdays in the next week." ∧
    ((⟨⟨1990, 10, 12⟩⟩ : Birthday).value.month, (⟨⟨1990, 10, 12⟩⟩ : Birthday).value.day) =
      ((⟨⟨2026, 10, 12⟩, 43200000000⟩ : PyDateTime).date.month,
       (⟨⟨2026, 10, 12⟩, 43200000000⟩ : PyDateTime).date.day) :=
  ⟨rfl, rfl, rfl⟩

/-- C6: evaluation at the failing input.  With today = 2026-10-12 at noon and
a stored birthday of 12.10.1990, whose next occurrence is today itself (0
days away under the claim), days_to_birthday returns 364: the midnight
occurrence compares smaller than the full datetime, gets rolled one year
forward, and the timedelta day count floors to 364. -/
theorem days_to_birthday_same_day_cex :
    Record.days_to_birthday ⟨⟨"Alice"⟩, [], some ⟨⟨1990, 10, 12⟩⟩⟩
        ⟨⟨2026, 10, 12⟩, 43200000000⟩ = Except.ok (some 364) ∧
    ((⟨⟨1990, 10, 12⟩⟩ : Birthday).value.month, (⟨⟨1990, 10, 12⟩⟩ : Birthday).value.day) =
      ((⟨⟨2026, 10, 12⟩, 43200000000⟩ : PyDateTime).date.month,
       (⟨⟨2026, 10, 12⟩, 43200000000⟩ : PyDateTime).date.day) ∧
    (364 : Int) ≠ 0 :=
  ⟨rfl, rfl, by decide⟩

/-- C3: for every wrapped command handler, every argument list, every book
state and every current datetime, dispatch returns a plain string together
with the body's final book state; the string is the body's own return value
when no exception is raised, and otherwise the input_error formatting of the
raised exception -- no exception propagates out of a handler. -/
theorem handlers_never_propagate (c : Cmd) (args : List String)
    (book : AddressBook) (today : PyDateTime) :
    ∃ s b2, runCmd c args book today = (s, b2) ∧
      b2 = (handlerBody c args book today).2 ∧
      ((handlerBody c args book today).1 = Except.ok s ∨
        ∃ e, (handlerBody c args book today).1 = Except.error e ∧ s = formatCaught e) := by
  refine ⟨input_errorWrap (handlerBody c args book today).1,
    (handlerBody c args book today).2, rfl, rfl, ?_⟩
  cases h : (handlerBody c args book today).1 with
  | ok v =>
    left
    rfl
  | error e =>
    right
    exact ⟨e, rfl, rfl⟩

/-- C5: when add is invoked with a fresh name and a phone argument that is
all digits but not of length 10, the handler returns the phone ValueError
message, yet the book has already been mutated: it now holds a Record under
that name with an empty phone list. -/
theorem add_contact_nonatomic (book : AddressBook) (nm ph : String)
    (h1 : AddressBook.find book nm = none) (h2 : pyStrIsDigit ph = true)
    (h3 : ph.length ≠ 10) :
    (add_contact [nm, ph] book).1 = "Error: Phone must have exactly 10 digits." ∧
    AddressBook.find (add_contact [nm, ph] book).2 nm = some ⟨⟨nm⟩, [], none⟩ := by
  have hpn : phoneNew ph =
      Except.error (PyErr.valueError "Phone must have exactly 10 digits.") := by
    unfold phoneNew
    rw [if_pos]
    simp [h2, h3]
  have hbody : add_contactBody [nm, ph] book =
      (Except.error (PyErr.valueError "Phone must have exactly 10 digits."),
       AddressBook.add_record book ⟨⟨nm⟩, [], none⟩) := by
    unfold add_contactBody
    simp [h1, h2, hpn]
  refine ⟨?_, ?_⟩
  · show input_errorWrap (add_contactBody [nm, ph] book).1 = _
    rw [hbody]
    rfl
  · show AddressBook.find (add_contactBody [nm, ph] book).2 nm = _
    rw [hbody]
    have habs : AddressBook.add_record book (⟨⟨nm⟩, [], none⟩ : Record) =
        book ++ [(nm, ⟨⟨nm⟩, [], none⟩)] :=
      add_record_absent book ⟨⟨nm⟩, [], none⟩ h1
    rw [habs]
    exact find_append_absent book nm _ h1

/-- C5 witness: the non-atomic add at the concrete input name Bob, phone
123, starting from the empty book. -/
theorem add_contact_nonatomic_witness :
    (add_contact ["Bob", "123"] ([] : AddressBook)).1 =
      "Error: Phone must have exactly 10 digits." ∧
    AddressBook.find (add_contact ["Bob", "123"] ([] : AddressBook)).2 "Bob" =
      some ⟨⟨"Bob"⟩, [], none⟩ :=
  add_contact_nonatomic [] "Bob" "123" rfl (by decide) (by decide)

/-- C7: when no phone entry of a record equals the old value, edit_phone
leaves the record unchanged, and the change handler on that record still
reports the success message with the book unchanged -- silent success. -/
theorem change_absent_phone_noop (book : AddressBook) (nm ov nv : String)
    (r : Record) (hf : AddressBook.find book nm = some r)
    (h : ∀ p ∈ r.phones, p.value ≠ ov) :
    Record.edit_phone r ov nv = r ∧
    change_phone [nm, ov, nv] book =
      ("Phone number " ++ ov ++ " changed to " ++ nv ++ " for contact " ++ nm ++ ".",
       book) := by
  have he : Record.edit_phone r ov nv = r := by
    unfold Record.edit_phone
    rw [editPhones_no_match r.phones ov nv h]
  refine ⟨he, ?_⟩
  have hstep : change_phoneBody [nm, ov, nv] book =
      (match AddressBook.find book nm with
       | none =>
         (Except.error (PyErr.valueError ("Contact " ++ nm ++ " not found in AddressBook.")),
          book)
       | some rr =>
         (Except.ok ("Phone number " ++ ov ++ " changed to " ++ nv ++
           " for contact " ++ nm ++ "."),
          AddressBook.update_record book nm (Record.edit_phone rr ov nv))) := rfl
  have hbody : change_phoneBody [nm, ov, nv] book =
      (Except.ok ("Phone number " ++ ov ++ " changed to " ++ nv ++
        " for contact " ++ nm ++ "."), book) := by
    simp only [hstep, hf, he, find_update_self book nm r hf]
  show (input_errorWrap (change_phoneBody [nm, ov, nv] book).1,
    (change_phoneBody [nm, ov, nv] book).2) = _
  rw [hbody]
  rfl

/-- C7 witness: the silent no-op at a concrete book holding one record with
one phone, editing a number that the record does not have. -/
theorem change_absent_phone_noop_witness :
    Record.edit_phone ⟨⟨"A"⟩, [⟨"0000000000"⟩], none⟩ "1111111111" "2222222222" =
      ⟨⟨"A"⟩, [⟨"0000000000"⟩], none⟩ ∧
    change_phone ["A", "1111111111", "2222222222"]
        [("A", ⟨⟨"A"⟩, [⟨"0000000000"⟩], none⟩)] =
      ("Phone number 1111111111 changed to 2222222222 for contact A.",
       [("A", ⟨⟨"A"⟩, [⟨"0000000000"⟩], none⟩)]) :=
  change_absent_phone_noop [("A", ⟨⟨"A"⟩, [⟨"0000000000"⟩], none⟩)]
    "A" "1111111111" "2222222222" ⟨⟨"A"⟩, [⟨"0000000000"⟩], none⟩ rfl
    (by decide)

/-- C8 counterexample: invoking change with two arguments returns the
ValueError branch message produced by the tuple unpacking, not the
IndexError branch message Missing arguments. -/
theorem change_two_args_cex :
    change_phone ["a", "b"] ([] : AddressBook) =
      ("Error: not enough values to unpack (expected 3, got 2)", []) ∧
    ("Error: not enough values to unpack (expected 3, got 2)" : String) ≠
      "Error: Missing arguments." := by
  exact ⟨rfl, by decide⟩

/-- C8 amended: with fewer than three arguments the change handler returns
the ValueError branch message for the failed tuple unpacking, because
unpacking a short list raises ValueError rather than IndexError; the
IndexError branch of the wrapper (Missing arguments.) is not reached.  The
book is left unchanged. -/
theorem change_few_args_value_error (args : List String) (book : AddressBook)
    (h : args.length < 3) :
    change_phone args book =
      ("Error: not enough values to unpack (expected 3, got " ++
        Nat.repr args.length ++ ")", book) := by
  match args with
  | [] => rfl
  | [a] => rfl
  | [a, b] => rfl
  | a :: b :: c :: rest =>
    exfalso
    simp only [List.length_cons] at h
    omega

/-- C8 witness: the amended statement at the concrete one-argument call. -/
theorem change_few_args_value_error_witness :
    change_phone ["x"] ([] : AddressBook) =
      ("Error: not enough values to unpack (expected 3, got 1)", []) :=
  change_few_args_value_error ["x"] [] (by decide)

/-- C9 counterexample: from the empty book, one add command with an empty
name argument succeeds and stores the empty string as a key of the book, so
not every stored Name and book key is non-empty. -/
theorem empty_name_key_cex :
    (add_contact ["", "0123456789"] ([] : AddressBook)).1 = "Contact added." ∧
    AddressBook.find (add_contact ["", "0123456789"] ([] : AddressBook)).2 "" =
      some ⟨⟨""⟩, [⟨"0123456789"⟩], none⟩ ∧
    ("" : String).length = 0 :=
  ⟨rfl, rfl, rfl⟩

/-- C9 amended: Name performs no validation, so it can hold any string, the
empty string included; the input line add with two consecutive spaces parses
to an empty name argument, and the add handler then stores the empty string
as a key of the book for any book that does not already contain it. -/
theorem empty_name_reachable (book : AddressBook)
    (h : AddressBook.find book "" = none) :
    parse_input "add  0123456789" = ("add", ["", "0123456789"]) ∧
    (add_contact ["", "0123456789"] book).1 = "Contact added." ∧
    AddressBook.find (add_contact ["", "0123456789"] book).2 "" =
      some ⟨⟨""⟩, [⟨"0123456789"⟩], none⟩ := by
  refine ⟨rfl, ?_, ?_⟩
  all_goals {
    have hbody : add_contactBody ["", "0123456789"] book =
        (Except.ok "Contact added.",
         AddressBook.update_record (AddressBook.add_record book ⟨⟨""⟩, [], none⟩)
           "" ⟨⟨""⟩, [⟨"0123456789"⟩], none⟩) := by
      unfold add_contactBody
      simp only [h]
      rfl
    have habs : AddressBook.add_record book (⟨⟨""⟩, [], none⟩ : Record) =
        book ++ [("", ⟨⟨""⟩, [], none⟩)] :=
      add_record_absent book ⟨⟨""⟩, [], none⟩ h
    first
    | (show input_errorWrap (add_contactBody ["", "0123456789"] book).1 = _
       rw [hbody]
       rfl)
    | (show AddressBook.find (add_contactBody ["", "0123456789"] book).2 "" = _
       rw [hbody, habs, update_append_absent book "" _ _ h]
       exact find_append_absent book "" _ h)
  }

/-- C10 counterexample: a tab does not separate tokens.  parse_input on the
line add-tab-x returns the whole text as the command token with no
arguments, not the whitespace-split pair ("add", ["x"]); the command token
even contains whitespace. -/
theorem parse_input_tab_cex :
    parse_input "add\tx" = ("add\tx", []) ∧
    (("add\tx", []) : String × List String) ≠ ("add", ["x"]) :=
  ⟨rfl, by decide⟩

/-- C10 amended: parse_input strips the raw line and splits it on single
space characters rather than on general whitespace: blank (empty or
whitespace-only) input yields an empty command with no arguments, and
otherwise the returned command and argument tokens contain no space
character and rejoin with single spaces to exactly the stripped input --
so consecutive spaces produce empty argument tokens and tabs never
separate. -/
theorem parse_input_split_spaces (s : String) :
    (pyStrip s = "" → parse_input s = ("", [])) ∧
    (pyStrip s ≠ "" →
      joinCh ' ' (((parse_input s).1 :: (parse_input s).2).map String.data) =
        (pyStrip s).data ∧
      ∀ t ∈ (parse_input s).1 :: (parse_input s).2, ' ' ∉ t.data) := by
  constructor
  · intro h
    unfold parse_input
    rw [if_pos h]
  · intro h
    have hpi : parse_input s =
        (match (splitOnCh ' ' (pyStrip s).data).map String.mk with
         | [] => ("", [])
         | c :: args => (c, args)) := by
      unfold parse_input
      rw [if_neg h]
    cases hsp : splitOnCh ' ' (pyStrip s).data with
    | nil => exact absurd hsp (splitOnCh_ne_nil ' ' _)
    | cons g gs =>
      have hpi2 : parse_input s = (String.mk g, gs.map String.mk) := by
        rw [hpi, hsp]
        rfl
      have hmem : ∀ t ∈ (parse_input s).1 :: (parse_input s).2,
          t.data ∈ splitOnCh ' ' (pyStrip s).data := by
        intro t ht
        rw [hpi2] at ht
        rw [hsp]
        rcases List.mem_cons.mp ht with h1 | h1
        · subst h1
          exact List.mem_cons_self _ _
        · rcases List.mem_map.mp h1 with ⟨g2, hg2, hEq⟩
          rw [← hEq]
          exact List.mem_cons_of_mem _ hg2
      constructor
      · rw [hpi2]
        have hmap : ((String.mk g :: gs.map String.mk).map String.data) = g :: gs := by
          simp only [List.map_cons, List.map_map]
          rw [show (String.data ∘ String.mk) = id from rfl, List.map_id]
        rw [hmap, ← hsp, joinCh_splitOnCh]
      · intro t ht hin
        exact splitOnCh_groups_no_sep ' ' (pyStrip s).data t.data (hmem t ht) ' ' hin rfl

/-- C10 witness: the amended statement at whitespace-only input and at input
with a doubled space. -/
theorem parse_input_split_spaces_witness :
    parse_input " " = ("", []) ∧
    joinCh ' ' (((parse_input "a  b").1 :: (parse_input "a  b").2).map String.data) =
      (pyStrip "a  b").data :=
  ⟨(parse_input_split_spaces " ").1 rfl,
   ((parse_input_split_spaces "a  b").2 (by decide)).1⟩

/-- C9 witness: the amended statement starting from the empty book. -/
theorem empty_name_reachable_witness :
    parse_input "add  0123456789" = ("add", ["", "0123456789"]) ∧
    (add_contact ["", "0123456789"] ([] : AddressBook)).1 = "Contact added." ∧
    AddressBook.find (add_contact ["", "0123456789"] ([] : AddressBook)).2 "" =
      some ⟨⟨""⟩, [⟨"0123456789"⟩], none⟩ :=
  empty_name_reachable [] rfl
